import Mathlib

/-!
# Verification of the instance-provisioning service

A shallow embedding of the Python services in `app/services/` and the HTTP
endpoint in `app/api/endpoints/instances.py`, together with theorems about
their behavior.

Modelling conventions:
* Python values that are only compared for equality (the provider's ingress
  rule dictionaries, provider call responses) are embedded as the inductive
  `Val` of JSON-like values, so that Python's `in` (element membership with
  `==`) keeps its exact semantics, including a list being tested for
  membership among dictionaries.
* Every provider (`ec2_client`) call is a parameter of the embedded function:
  an `Except PyErr r` value (or a function producing one) standing for the
  awaited result of that call — `.ok` for a normal return, `.error` for a
  raised exception.  The functions are therefore total over all provider
  behaviors.
* Side effects are recorded in an event trace (`List Event`): one event per
  provider call issued, file write, permission change, or backoff sleep.
  An event is recorded whenever the call is issued, even if that call raises.
* `float` delays are embedded as `Rat` (the delays involved are only ever
  doubled starting from a binary-representable initial value, so rational
  arithmetic is exact).
* Python's `raise HTTPException(status_code=..., detail=...)` is embedded as
  `Except.error` of an `HTTPError`.
-/

/-- A JSON-like Python value, as found in provider responses and in the
`ip_permissions` rule dictionaries. -/
inductive Val where
  | str : String → Val
  | int : Int → Val
  | list : List Val → Val
  | dict : List (String × Val) → Val
  deriving Repr

mutual

def Val.beq : Val → Val → Bool
  | .str a, .str b => a == b
  | .int a, .int b => a == b
  | .list a, .list b => Val.beqList a b
  | .dict a, .dict b => Val.beqDict a b
  | _, _ => false

def Val.beqList : List Val → List Val → Bool
  | [], [] => true
  | x :: xs, y :: ys => Val.beq x y && Val.beqList xs ys
  | _, _ => false

def Val.beqDict : List (String × Val) → List (String × Val) → Bool
  | [], [] => true
  | (k, v) :: xs, (l, w) :: ys => k == l && Val.beq v w && Val.beqDict xs ys
  | _, _ => false

end

instance : BEq Val := ⟨Val.beq⟩

mutual

theorem Val.beq_iff : ∀ a b : Val, Val.beq a b = true ↔ a = b
  | .str a, .str b => by simp [Val.beq]
  | .int a, .int b => by simp [Val.beq]
  | .list a, .list b => by simpa [Val.beq] using Val.beqList_iff a b
  | .dict a, .dict b => by simpa [Val.beq] using Val.beqDict_iff a b
  | .str _, .int _ | .str _, .list _ | .str _, .dict _
  | .int _, .str _ | .int _, .list _ | .int _, .dict _
  | .list _, .str _ | .list _, .int _ | .list _, .dict _
  | .dict _, .str _ | .dict _, .int _ | .dict _, .list _ => by simp [Val.beq]

theorem Val.beqList_iff : ∀ a b : List Val, Val.beqList a b = true ↔ a = b
  | [], [] => by simp [Val.beqList]
  | x :: xs, y :: ys => by
      simp [Val.beqList, Val.beq_iff x y, Val.beqList_iff xs ys]
  | [], _ :: _ | _ :: _, [] => by simp [Val.beqList]

theorem Val.beqDict_iff : ∀ a b : List (String × Val), Val.beqDict a b = true ↔ a = b
  | [], [] => by simp [Val.beqDict]
  | (k, v) :: xs, (l, w) :: ys => by
      simp [Val.beqDict, Val.beq_iff v w, Val.beqDict_iff xs ys, and_assoc]
  | [], _ :: _ | _ :: _, [] => by simp [Val.beqDict]

end

instance : LawfulBEq Val where
  eq_of_beq h := (Val.beq_iff _ _).mp h
  rfl := (Val.beq_iff _ _).mpr rfl

instance : DecidableEq Val := fun a b =>
  decidable_of_iff (Val.beq a b = true) (Val.beq_iff a b)

/-- A Python exception raised by a provider call or by the surrounding code:
`botocore.exceptions.NoCredentialsError`, `botocore.exceptions.ClientError`,
`ValueError`, `AttributeError`, `TypeError`, or anything else. -/
inductive PyErr where
  | noCredentials : PyErr
  | clientError : String → PyErr
  | valueError : String → PyErr
  | attributeError : String → PyErr
  | typeError : String → PyErr
  | other : String → PyErr
  deriving DecidableEq, Repr

/-- `fastapi.HTTPException(status_code, detail)`. -/
structure HTTPError where
  status_code : Nat
  detail : String
  deriving DecidableEq, Repr

/-- The keyword parameters of `ec2_client.run_instances(**params)` as built by
`create_instance`: the `params` dict has fixed keys `ImageId`, `MinCount`,
`MaxCount`, `InstanceType`, plus `KeyName` only when key-pair creation was
requested. -/
structure RunParams where
  ImageId : String
  MinCount : Int
  MaxCount : Int
  InstanceType : String
  KeyName : Option String := none
  deriving DecidableEq, Repr

/-- One observable side effect: a provider call issued (with its arguments),
a local file write, a permission change, or a backoff sleep. -/
inductive Event where
  | describeKeyPairs : Event
  | createKeyPair : String → Event
  | writeFile : String → String → Event
  | chmod : String → Nat → Event
  | describeSecurityGroups : Event
  | createSecurityGroup : String → String → Event
  | authorizeIngress : String → List Val → Event
  | describeInstances : List String → Event
  | modifyInstanceAttribute : String → List String → Event
  | runInstances : RunParams → Event
  | terminateInstances : List String → Event
  | waitRunning : List String → Event
  | waitTerminated : List String → Event
  | sleep : Rat → Event
  deriving DecidableEq, Repr

/-- Whether an event is a provider-mutating call (as opposed to a describe,
a wait, a sleep, or a local file operation). -/
def Event.isProviderMutation : Event → Bool
  | .createKeyPair _ => true
  | .createSecurityGroup _ _ => true
  | .authorizeIngress _ _ => true
  | .modifyInstanceAttribute _ _ => true
  | .runInstances _ => true
  | .terminateInstances _ => true
  | _ => false

/-- Whether an event writes a local file. -/
def Event.isFileWrite : Event → Bool
  | .writeFile _ _ => true
  | _ => false

/-- The `except NoCredentialsError / except ClientError / except Exception`
ladder shared by `create_instance`, `create_security_group`,
`authorize_ingress` and `attach_security_group`. -/
def awsHandle : PyErr → HTTPError
  | .noCredentials => ⟨400, "AWS credentials error"⟩
  | .clientError _ => ⟨400, "AWS client error"⟩
  | _ => ⟨500, "Unexpected error"⟩

/-- The variant ladder in `terminate_instance`, whose `ClientError` branch
interpolates the exception text into the detail string. -/
def awsHandleTerm : PyErr → HTTPError
  | .noCredentials => ⟨400, "AWS credentials error"⟩
  | .clientError m => ⟨400, "AWS client error: " ++ m⟩
  | _ => ⟨500, "Unexpected error"⟩

/-- Wrap a `try` body's outcome with an exception-mapping ladder. -/
def pyTry (h : PyErr → HTTPError) : Except PyErr α → Except HTTPError α
  | .ok a => .ok a
  | .error e => .error (h e)

/-- One instance dictionary inside a `describe_instances` reservation,
abstracted to the only field the services read:
`[sg['GroupId'] for sg in instance['SecurityGroups']]`. -/
structure InstanceData where
  SecurityGroups : List String
  deriving DecidableEq, Repr

/-- One reservation dictionary of a `describe_instances` response. -/
structure Reservation where
  Instances : List InstanceData
  deriving DecidableEq, Repr

/-- A `describe_instances` response. -/
structure DIResp where
  Reservations : List Reservation
  deriving DecidableEq, Repr

/-- The validity test of `describe_instances_with_retry`:
`response.get('Reservations') and response['Reservations'][0].get('Instances')`
(a missing or empty list is falsy either way). -/
def diRespHasData (r : DIResp) : Bool :=
  match r.Reservations with
  | [] => false
  | r0 :: _ => !r0.Instances.isEmpty

/-- The body of the `while attempt < max_attempts` loop of
`describe_instances_with_retry`, recursing on the number of loop iterations
still permitted (`max_attempts - attempt`).  `describe n` is the outcome of
the `ec2_client.describe_instances` call made on attempt number `n`
(0-based).  Result `.ok none` is the implicit `None` returned when the loop
condition fails immediately (only possible for `max_attempts = 0`). -/
def retryAux (describe : Nat → Except PyErr DIResp) (instance_ids : List String)
    (attempt : Nat) (delay : Rat) :
    Nat → Except PyErr (Option DIResp) × List Event
  | 0 => (.ok none, [])
  | remaining + 1 =>
    let tryOutcome : Except PyErr DIResp :=
      match describe attempt with
      | .error e => .error e
      | .ok resp =>
        if diRespHasData resp then .ok resp
        else .error (.valueError "Instance data not available yet")
    match tryOutcome with
    | .ok resp => (.ok (some resp), [.describeInstances instance_ids])
    | .error e =>
      if remaining = 0 then (.error e, [.describeInstances instance_ids])
      else
        let rest := retryAux describe instance_ids (attempt + 1) (delay * 2) remaining
        (rest.1, .describeInstances instance_ids :: .sleep delay :: rest.2)

/-- `describe_instances_with_retry(ec2_client, instance_ids, max_attempts=5,
initial_delay=1.0)`. -/
def describe_instances_with_retry (describe : Nat → Except PyErr DIResp)
    (instance_ids : List String) (max_attempts : Nat := 5)
    (initial_delay : Rat := 1) : Except PyErr (Option DIResp) × List Event :=
  retryAux describe instance_ids 0 initial_delay max_attempts

/-- One security-group dictionary of a `describe_security_groups` response,
abstracted to the three fields the services read. -/
structure SG where
  GroupName : String
  GroupId : String
  IpPermissions : List Val
  deriving DecidableEq, Repr

/-- `create_security_group(ec2_client, group_name, group_description)`.
`dsg` is the outcome of the `describe_security_groups` call; `csg` gives the
outcome of `create_security_group` (abstracted to `response["GroupId"]`). -/
def create_security_group (dsg : Except PyErr (List SG))
    (csg : String → String → Except PyErr String)
    (group_name : String) (group_description : String) :
    Except HTTPError (Option String) × List Event :=
  let body : Except PyErr (Option String) × List Event :=
    match dsg with
    | .error e => (.error e, [.describeSecurityGroups])
    | .ok groups =>
      let existing_sg_names := groups.map (fun sg => sg.GroupName)
      if group_name ∉ existing_sg_names then
        match csg group_name group_description with
        | .error e =>
          (.error e, [.describeSecurityGroups,
                      .createSecurityGroup group_name group_description])
        | .ok gid =>
          (.ok (some gid), [.describeSecurityGroups,
                            .createSecurityGroup group_name group_description])
      else
        (.ok ((groups.find? (fun sg => group_name == sg.GroupName)).map
                (fun sg => sg.GroupId)),
         [.describeSecurityGroups])
  (pyTry awsHandle body.1, body.2)

/-- The branch condition of `authorize_ingress`:
`(group_id in existing_sg_id and ip_permissions not in existing_ip_permissions)
 or group_id not in existing_sg_id`.
The `and` short-circuits, so `existing_ip_permissions` (which is `None` when
the group is absent, modelled by `Option.getD` on the never-taken branch) is
only inspected when the group was found, and
`ip_permissions not in existing_ip_permissions` tests the rule LIST for
element membership among the group's current permission entries. -/
def authorizeNeeded (groups : List SG) (group_id : String)
    (ip_permissions : List Val) : Bool :=
  let existing_sg_id := groups.map (fun sg => sg.GroupId)
  let existing_ip_permissions : Option (List Val) :=
    (groups.find? (fun sg => group_id == sg.GroupId)).map
      (fun sg => sg.IpPermissions)
  (existing_sg_id.contains group_id &&
    !((existing_ip_permissions.getD []).contains (Val.list ip_permissions)))
  || !(existing_sg_id.contains group_id)

/-- `authorize_ingress(ec2_client, group_id, ip_permissions)`.  `dsg` is the
outcome of the first `describe_security_groups` call, `auth` of the
`authorize_security_group_ingress` call, `dsg2` of the trailing
`describe_security_groups` issued for logging before the return. -/
def authorize_ingress (dsg : Except PyErr (List SG))
    (auth : String → List Val → Except PyErr Val)
    (dsg2 : Except PyErr (List SG))
    (group_id : String) (ip_permissions : List Val) :
    Except HTTPError (Option Val) × List Event :=
  let body : Except PyErr (Option Val) × List Event :=
    match dsg with
    | .error e => (.error e, [.describeSecurityGroups])
    | .ok groups =>
      let step : Except PyErr (Option Val) × List Event :=
        if authorizeNeeded groups group_id ip_permissions then
          match auth group_id ip_permissions with
          | .error e => (.error e, [.authorizeIngress group_id ip_permissions])
          | .ok v => (.ok (some v), [.authorizeIngress group_id ip_permissions])
        else
          (.ok ((groups.find? (fun sg => group_id == sg.GroupId)).map
                  (fun sg => Val.list sg.IpPermissions)),
           [])
      match step with
      | (.error e, evs) => (.error e, .describeSecurityGroups :: evs)
      | (.ok v, evs) =>
        match dsg2 with
        | .error e =>
          (.error e, .describeSecurityGroups :: (evs ++ [.describeSecurityGroups]))
        | .ok _ =>
          (.ok v, .describeSecurityGroups :: (evs ++ [.describeSecurityGroups]))
  (pyTry awsHandle body.1, body.2)

/-- `attach_security_group(ec2_client, group_id, instance_id)`.  `describe`
feeds the retrying describer; `mia` is the outcome of the
`modify_instance_attribute(InstanceId=..., Groups=...)` call.  The
unreachable `None`/empty-list accesses become `TypeError`/`IndexError`
outcomes, exactly as the Python subscripts would raise. -/
def attach_security_group (describe : Nat → Except PyErr DIResp)
    (mia : String → List String → Except PyErr Val)
    (group_id : String) (instance_id : String) :
    Except HTTPError Val × List Event :=
  let retry := describe_instances_with_retry describe [instance_id]
  let body : Except PyErr Val × List Event :=
    match retry with
    | (.error e, evs) => (.error e, evs)
    | (.ok none, evs) =>
      (.error (.typeError "NoneType object is not subscriptable"), evs)
    | (.ok (some resp), evs) =>
      match resp.Reservations with
      | [] => (.error (.other "IndexError: list index out of range"), evs)
      | res0 :: _ =>
        match res0.Instances with
        | [] => (.error (.other "IndexError: list index out of range"), evs)
        | inst0 :: _ =>
          let current_sg_ids := inst0.SecurityGroups
          let submitted :=
            if group_id ∉ current_sg_ids then current_sg_ids ++ [group_id]
            else current_sg_ids
          match mia instance_id submitted with
          | .error e =>
            (.error e, evs ++ [.modifyInstanceAttribute instance_id submitted])
          | .ok v =>
            (.ok v, evs ++ [.modifyInstanceAttribute instance_id submitted])
  (pyTry awsHandle body.1, body.2)

/-- `create_keypair(ec2_client, key_name)` (identical in
`key_pair_service.py` and `instance_service.py`; no `try`/`except` of its
own, so exceptions propagate as `PyErr`).  `dkp` is the outcome of
`describe_key_pairs` (abstracted to the list of `KeyName`s); `ckp` gives the
outcome of `create_key_pair` (abstracted to the returned `KeyMaterial`).
`0o400` is the owner-read-only permission set by `os.chmod`. -/
def create_keypair (dkp : Except PyErr (List String))
    (ckp : String → Except PyErr String)
    (key_name : String) : Except PyErr String × List Event :=
  match dkp with
  | .error e => (.error e, [.describeKeyPairs])
  | .ok existing_keys =>
    if key_name ∉ existing_keys then
      match ckp key_name with
      | .error e => (.error e, [.describeKeyPairs, .createKeyPair key_name])
      | .ok key_material =>
        let filename := key_name ++ ".pem"
        (.ok key_name,
         [.describeKeyPairs, .createKeyPair key_name,
          .writeFile filename key_material, .chmod filename 0o400])
    else
      (.ok key_name, [.describeKeyPairs])

/-- Python's `n or d` on integers: `0` is falsy, everything else truthy. -/
def pyIntOr (n d : Int) : Int := if n = 0 then d else n

/-- `create_instance(ec2_client, ami_id, min_count, max_count,
create_key_pair, key_name)` — the six-parameter function of
`instance_service.py`.  `run` gives the outcome of `run_instances`
(abstracted to the `InstanceId`s of its `Instances` list);
`waiterRunning` the outcome of the `instance_running` waiter. -/
def create_instance (dkp : Except PyErr (List String))
    (ckp : String → Except PyErr String)
    (run : RunParams → Except PyErr (List String))
    (waiterRunning : List String → Except PyErr Unit)
    (ami_id : String) (min_count : Int) (max_count : Int)
    (create_key_pair : Bool) (key_name : String) :
    Except HTTPError (List String) × List Event :=
  let params : RunParams :=
    { ImageId := ami_id
      MinCount := pyIntOr min_count 1
      MaxCount := pyIntOr max_count 1
      InstanceType := "t2.micro" }
  let kpStep : Except PyErr RunParams × List Event :=
    if create_key_pair then
      match create_keypair dkp ckp key_name with
      | (.error e, evs) => (.error e, evs)
      | (.ok kn, evs) => (.ok { params with KeyName := some kn }, evs)
    else (.ok params, [])
  let body : Except PyErr (List String) × List Event :=
    match kpStep with
    | (.error e, evs) => (.error e, evs)
    | (.ok ps, evs) =>
      match run ps with
      | .error e => (.error e, evs ++ [.runInstances ps])
      | .ok instance_ids =>
        match waiterRunning instance_ids with
        | .error e =>
          (.error e, evs ++ [.runInstances ps, .waitRunning instance_ids])
        | .ok _ =>
          (.ok instance_ids, evs ++ [.runInstances ps, .waitRunning instance_ids])
  (pyTry awsHandle body.1, body.2)

/-- `terminate_instance(ec2_client, instance_ids)`.  `term` gives the
outcome of `terminate_instances`, `waiterTerminated` of the
`instance_terminated` waiter. -/
def terminate_instance (term : List String → Except PyErr Unit)
    (waiterTerminated : List String → Except PyErr Unit)
    (instance_ids : List String) :
    Except HTTPError (List String) × List Event :=
  let body : Except PyErr (List String) × List Event :=
    match term instance_ids with
    | .error e => (.error e, [.terminateInstances instance_ids])
    | .ok _ =>
      match waiterTerminated instance_ids with
      | .error e =>
        (.error e, [.terminateInstances instance_ids,
                    .waitTerminated instance_ids])
      | .ok _ =>
        (.ok instance_ids, [.terminateInstances instance_ids,
                            .waitTerminated instance_ids])
  (pyTry awsHandleTerm body.1, body.2)

/-- The request body model `InstanceRequest` of `app/models/instance_models.py`
with its declared fields and defaults. -/
structure InstanceRequest where
  ami_id : String := "ami-02a53b0d62d37a757"
  min_count : Int := 1
  max_count : Int := 1
  create_key_pair : Bool := false
  key_name : Option String := none
  deriving DecidableEq, Repr

/-- The field names the `InstanceRequest` Pydantic model declares. -/
def instanceRequestFields : List String :=
  ["ami_id", "min_count", "max_count", "create_key_pair", "key_name"]

/-- The attribute names `api_create_instance` reads off `instance_req`, in
the left-to-right evaluation order of the positional arguments it passes to
`instance_service.create_instance`. -/
def apiCreateInstanceAttrs : List String :=
  ["ami_id", "min_count", "max_count", "create_key_pair", "key_name",
   "create_security_group", "security_group_name",
   "security_group_description", "security_group_rules"]

/-- The number of parameters of `instance_service.create_instance`
(`ec2_client, ami_id, min_count, max_count, create_key_pair, key_name`). -/
def createInstanceParamCount : Nat := 6

/-- The number of positional arguments `api_create_instance` passes to
`instance_service.create_instance` (the client plus nine attributes). -/
def apiCreateInstanceArgCount : Nat := 10

/-- Pydantic attribute access: reading a name that is not a declared model
field raises `AttributeError`. -/
def getattrCheck (name : String) : Except PyErr Unit :=
  if name ∈ instanceRequestFields then .ok () else .error (.attributeError name)

/-- Evaluate a sequence of attribute accesses left to right, stopping at the
first one that raises. -/
def evalAttrAccesses : List String → Except PyErr Unit
  | [] => .ok ()
  | n :: ns =>
    match getattrCheck n with
    | .error e => .error e
    | .ok _ => evalAttrAccesses ns

/-- The body of `api_create_instance(instance_req, ec2_client)`: Python
evaluates every argument expression (each an `instance_req.<attr>` access)
before entering the callee, and a positional-argument count different from
the callee's parameter count raises `TypeError` at the call itself; either
way nothing of `create_instance`'s body — hence no provider call — runs.
The trace is the list of provider calls issued by the endpoint itself. -/
def api_create_instance (_req : InstanceRequest) : Except PyErr Unit × List Event :=
  match evalAttrAccesses apiCreateInstanceAttrs with
  | .error e => (.error e, [])
  | .ok _ =>
    if apiCreateInstanceArgCount ≠ createInstanceParamCount then
      (.error (.typeError
        "create_instance takes 6 positional arguments but 10 were given"), [])
    else
      (.ok (), [])

/-- The caller's security-group rule model of spec §3: protocol, port range
(from/to), CIDR ranges. -/
structure SGRule where
  protocol : String
  from_port : Int
  to_port : Int
  cidrs : List String
  deriving DecidableEq, Repr

/-- Modelled from the spec: "translate the caller's rule list into provider
rule objects" (spec §4.4 step 2) — one caller rule becomes one provider
`IpPermissions` dictionary. -/
def SGRule.toIpPermission (r : SGRule) : Val :=
  Val.dict [("IpProtocol", .str r.protocol),
            ("FromPort", .int r.from_port),
            ("ToPort", .int r.to_port),
            ("IpRanges", .list (r.cidrs.map (fun c => Val.dict [("CidrIp", .str c)])))]

/-- Modelled from the spec: "attach it to every newly launched instance
(sequential, not parallel, in the reference behavior)" (spec §4.4 step 5) —
`attach_security_group` folded over the launched ids in order, stopping at
the first failure. -/
def attachAll (describeFor : String → Nat → Except PyErr DIResp)
    (mia : String → List String → Except PyErr Val)
    (gid : String) : List String → Except HTTPError Unit × List Event
  | [] => (.ok (), [])
  | iid :: rest =>
    match attach_security_group (describeFor iid) mia gid iid with
    | (.error e, evs) => (.error e, evs)
    | (.ok _, evs) =>
      let r := attachAll describeFor mia gid rest
      (r.1, evs ++ r.2)

/-- Modelled from the spec: the security-group-aware `create_instance` that
`api_create_instance` invokes with ten positional arguments is not among the
source files (the `create_instance` present takes six parameters and has no
security-group logic; only its caller is present).  Its orchestration
sequence follows spec §4.4: base launch parameters; if security-group
creation is requested and the feature flag (`flagEnabled`, spec §6) is
enabled, ensure the group exists, translate the rule list, authorize
ingress; optional key pair; launch; attach the created group to every
launched instance; wait for running; return the ids.  Steps 2 and 5
delegate to the embedded `create_security_group`, `authorize_ingress` and
`attach_security_group` of `security_group_service.py`. -/
def create_instance_full
    (flagEnabled : Bool)
    (dsg : Except PyErr (List SG)) (csg : String → String → Except PyErr String)
    (dsgA : Except PyErr (List SG)) (auth : String → List Val → Except PyErr Val)
    (dsgA2 : Except PyErr (List SG))
    (dkp : Except PyErr (List String)) (ckp : String → Except PyErr String)
    (run : RunParams → Except PyErr (List String))
    (describeFor : String → Nat → Except PyErr DIResp)
    (mia : String → List String → Except PyErr Val)
    (waiterRunning : List String → Except PyErr Unit)
    (ami_id : String) (min_count : Int) (max_count : Int)
    (create_key_pair : Bool) (key_name : String)
    (create_security_group_req : Bool) (security_group_name : String)
    (security_group_description : String)
    (security_group_rules : List SGRule) :
    Except HTTPError (List String) × List Event :=
  let params : RunParams :=
    { ImageId := ami_id
      MinCount := pyIntOr min_count 1
      MaxCount := pyIntOr max_count 1
      InstanceType := "t2.micro" }
  let sgStep : Except HTTPError (Option String) × List Event :=
    if create_security_group_req && flagEnabled then
      match create_security_group dsg csg security_group_name
              security_group_description with
      | (.error e, evs) => (.error e, evs)
      | (.ok none, evs) => (.ok none, evs)
      | (.ok (some gid), evs) =>
        let perms := security_group_rules.map SGRule.toIpPermission
        match authorize_ingress dsgA auth dsgA2 gid perms with
        | (.error e, evs2) => (.error e, evs ++ evs2)
        | (.ok _, evs2) => (.ok (some gid), evs ++ evs2)
    else (.ok none, [])
  match sgStep with
  | (.error e, evs) => (.error e, evs)
  | (.ok gid?, evsSG) =>
    let kpStep : Except HTTPError RunParams × List Event :=
      if create_key_pair then
        match create_keypair dkp ckp key_name with
        | (.error e, evs) => (.error (awsHandle e), evs)
        | (.ok kn, evs) => (.ok { params with KeyName := some kn }, evs)
      else (.ok params, [])
    match kpStep with
    | (.error e, evsKP) => (.error e, evsSG ++ evsKP)
    | (.ok ps, evsKP) =>
      match run ps with
      | .error e => (.error (awsHandle e), evsSG ++ evsKP ++ [.runInstances ps])
      | .ok instance_ids =>
        let attachStep : Except HTTPError Unit × List Event :=
          match gid? with
          | none => (.ok (), [])
          | some gid => attachAll describeFor mia gid instance_ids
        match attachStep with
        | (.error e, evsAt) =>
          (.error e, evsSG ++ evsKP ++ [.runInstances ps] ++ evsAt)
        | (.ok _, evsAt) =>
          match waiterRunning instance_ids with
          | .error e =>
            (.error (awsHandle e),
             evsSG ++ evsKP ++ [.runInstances ps] ++ evsAt
               ++ [.waitRunning instance_ids])
          | .ok _ =>
            (.ok instance_ids,
             evsSG ++ evsKP ++ [.runInstances ps] ++ evsAt
               ++ [.waitRunning instance_ids])

/-- The delays slept during a trace, in order. -/
def sleepsOf (t : List Event) : List Rat :=
  t.filterMap (fun e => match e with | .sleep d => some d | _ => none)

/-- The number of `describe_instances` calls issued during a trace. -/
def describeCallCount (t : List Event) : Nat :=
  t.countP (fun e => match e with | .describeInstances _ => true | _ => false)

/-- The number of `authorize_security_group_ingress` calls issued during a
trace. -/
def authorizeCallCount (t : List Event) : Nat :=
  t.countP (fun e => match e with | .authorizeIngress _ _ => true | _ => false)

/-- The number of `create_key_pair` calls issued during a trace. -/
def createKeyPairCallCount (t : List Event) : Nat :=
  t.countP (fun e => match e with | .createKeyPair _ => true | _ => false)

/-- The number of `modify_instance_attribute` calls issued during a trace. -/
def modifyCallCount (t : List Event) : Nat :=
  t.countP (fun e => match e with | .modifyInstanceAttribute _ _ => true | _ => false)

/-- The exception, if any, produced by attempt `n` of the retry loop: the
exception of the `describe_instances` call itself, or the
`ValueError("Instance data not available yet")` raised when the response
lacks the expected nested data. -/
def attemptErr (describe : Nat → Except PyErr DIResp) (n : Nat) : Option PyErr :=
  match describe n with
  | .error e => some e
  | .ok r =>
    if diRespHasData r then none
    else some (.valueError "Instance data not available yet")

/-! ## Theorems -/

/-- C2: `api_create_instance` reads `create_security_group`,
`security_group_name`, `security_group_description` and
`security_group_rules` from an `InstanceRequest` that defines none of those
fields, and passes ten positional arguments to the six-parameter
`create_instance`; hence every `POST /create-instance` request raises before
any provider call is made and can never return a successful response. -/
theorem api_create_instance_always_errors (req : InstanceRequest) :
    api_create_instance req = (.error (.attributeError "create_security_group"), []) ∧
    "create_security_group" ∉ instanceRequestFields ∧
    "security_group_name" ∉ instanceRequestFields ∧
    "security_group_description" ∉ instanceRequestFields ∧
    "security_group_rules" ∉ instanceRequestFields ∧
    "create_security_group" ∈ apiCreateInstanceAttrs ∧
    "security_group_name" ∈ apiCreateInstanceAttrs ∧
    "security_group_description" ∈ apiCreateInstanceAttrs ∧
    "security_group_rules" ∈ apiCreateInstanceAttrs ∧
    apiCreateInstanceArgCount = 10 ∧ createInstanceParamCount = 6 ∧
    (∀ u, (api_create_instance req).1 ≠ .ok u) := by
  have h : api_create_instance req =
      (.error (.attributeError "create_security_group"), []) := rfl
  refine ⟨h, by decide, by decide, by decide, by decide, by decide, by decide,
    by decide, by decide, rfl, rfl, fun u hu => ?_⟩
  rw [h] at hu
  exact Except.noConfusion hu

/-- C8: when the name is absent from the existing key pairs,
`create_keypair` calls the provider's `create_key_pair`, writes the returned
private-key material to `{name}.pem`, sets that file's mode to `0o400`, and
only then (the write and chmod precede the return in the trace) returns the
name. -/
theorem create_keypair_fresh_creates_and_writes
    (keys : List String) (ckp : String → Except PyErr String)
    (key_name mat : String)
    (habs : key_name ∉ keys) (hck : ckp key_name = .ok mat) :
    create_keypair (.ok keys) ckp key_name =
      (.ok key_name,
       [.describeKeyPairs, .createKeyPair key_name,
        .writeFile (key_name ++ ".pem") mat,
        .chmod (key_name ++ ".pem") 0o400]) := by
  simp [create_keypair, habs, hck]

/-- Witness for C8 at a concrete fresh key name. -/
theorem create_keypair_fresh_creates_and_writes_witness :
    "mykey" ∉ (["other"] : List String) ∧
    create_keypair (.ok ["other"]) (fun _ => .ok "PEMDATA") "mykey" =
      (.ok "mykey",
       [.describeKeyPairs, .createKeyPair "mykey",
        .writeFile ("mykey" ++ ".pem") "PEMDATA",
        .chmod ("mykey" ++ ".pem") 0o400]) :=
  ⟨by decide,
   create_keypair_fresh_creates_and_writes ["other"] (fun _ => .ok "PEMDATA")
     "mykey" "PEMDATA" (by decide) rfl⟩

/-- C7: calling `create_keypair` twice with the same name — the name absent
before the first call, and listed by the provider afterwards — performs
exactly one provider `create_key_pair` call and exactly one disk write in
total; the second call issues zero provider-mutating calls, writes no file,
and returns the same name. -/
theorem create_keypair_idempotent
    (keys1 keys2 : List String) (ckp : String → Except PyErr String)
    (key_name mat : String)
    (h1 : key_name ∉ keys1) (hck : ckp key_name = .ok mat)
    (h2 : key_name ∈ keys2) :
    createKeyPairCallCount ((create_keypair (.ok keys1) ckp key_name).2
        ++ (create_keypair (.ok keys2) ckp key_name).2) = 1 ∧
    ((create_keypair (.ok keys1) ckp key_name).2
        ++ (create_keypair (.ok keys2) ckp key_name).2).countP
        (fun e => e.isFileWrite) = 1 ∧
    (create_keypair (.ok keys2) ckp key_name).1 = .ok key_name ∧
    (create_keypair (.ok keys2) ckp key_name).2.countP
        (fun e => e.isProviderMutation) = 0 ∧
    (create_keypair (.ok keys2) ckp key_name).2.countP
        (fun e => e.isFileWrite) = 0 ∧
    (create_keypair (.ok keys1) ckp key_name).1 = .ok key_name := by
  have e1 : create_keypair (.ok keys1) ckp key_name =
      (.ok key_name,
       [.describeKeyPairs, .createKeyPair key_name,
        .writeFile (key_name ++ ".pem") mat,
        .chmod (key_name ++ ".pem") 0o400]) := by
    simp [create_keypair, h1, hck]
  have e2 : create_keypair (.ok keys2) ckp key_name =
      (.ok key_name, [.describeKeyPairs]) := by
    simp [create_keypair, h2]
  rw [e1, e2]
  exact ⟨rfl, rfl, rfl, rfl, rfl, rfl⟩

/-- Witness for C7 at a concrete name and provider history. -/
theorem create_keypair_idempotent_witness :
    "k1" ∉ (["other"] : List String) ∧ "k1" ∈ (["other", "k1"] : List String) ∧
    createKeyPairCallCount ((create_keypair (.ok ["other"]) (fun _ => .ok "PEM") "k1").2
        ++ (create_keypair (.ok ["other", "k1"]) (fun _ => .ok "PEM") "k1").2) = 1 :=
  ⟨by decide, by decide,
   (create_keypair_idempotent ["other"] ["other", "k1"] (fun _ => .ok "PEM")
     "k1" "PEM" (by decide) rfl (by decide)).1⟩

/-- C9: `attach_security_group` reads the instance's current security-group
id list via the retrying describer, appends `group_id` only if absent, and
submits the computed list as a full replacement via
`modify_instance_attribute`; the submitted list contains `group_id` and
every previously attached id, and the replacement call is issued even when
`group_id` was already attached. -/
theorem attach_security_group_submits_full_list
    (describe : Nat → Except PyErr DIResp)
    (mia : String → List String → Except PyErr Val)
    (g i : String) (resp : DIResp) (r0 : Reservation) (i0 : InstanceData)
    (rs : List Reservation) (is0 : List InstanceData)
    (hd : describe 0 = .ok resp)
    (hres : resp.Reservations = r0 :: rs)
    (hins : r0.Instances = i0 :: is0) :
    (attach_security_group describe mia g i).2 =
      [.describeInstances [i],
       .modifyInstanceAttribute i
         (if g ∉ i0.SecurityGroups then i0.SecurityGroups ++ [g]
          else i0.SecurityGroups)] ∧
    g ∈ (if g ∉ i0.SecurityGroups then i0.SecurityGroups ++ [g]
         else i0.SecurityGroups) ∧
    (∀ x ∈ i0.SecurityGroups,
      x ∈ (if g ∉ i0.SecurityGroups then i0.SecurityGroups ++ [g]
           else i0.SecurityGroups)) := by
  have hdata : diRespHasData resp = true := by
    simp [diRespHasData, hres, hins]
  have hretry : describe_instances_with_retry describe [i] =
      (.ok (some resp), [.describeInstances [i]]) := by
    simp [describe_instances_with_retry, retryAux, hd, hdata]
  refine ⟨?_, ?_, ?_⟩
  · simp only [attach_security_group, hretry, hres, hins]
    rcases hm : mia i (if g ∉ i0.SecurityGroups then i0.SecurityGroups ++ [g]
        else i0.SecurityGroups) with e | v <;> simp [hm]
  · by_cases hg : g ∈ i0.SecurityGroups
    · simp [hg]
    · simp [hg]
  · intro x hx
    by_cases hg : g ∈ i0.SecurityGroups
    · simpa [hg] using hx
    · simp [hg, List.mem_append]
      exact Or.inl hx

/-- Witness for C9: a freshly described instance with one existing group. -/
theorem attach_security_group_submits_full_list_witness :
    (attach_security_group
      (fun _ => .ok ⟨[⟨[⟨["sg-old"]⟩]⟩]⟩)
      (fun _ _ => .ok (Val.str "done")) "sg-new" "i-1").2 =
      [.describeInstances ["i-1"],
       .modifyInstanceAttribute "i-1"
         (if "sg-new" ∉ (⟨["sg-old"]⟩ : InstanceData).SecurityGroups
          then (⟨["sg-old"]⟩ : InstanceData).SecurityGroups ++ ["sg-new"]
          else (⟨["sg-old"]⟩ : InstanceData).SecurityGroups)] :=
  (attach_security_group_submits_full_list
    (fun _ => .ok ⟨[⟨[⟨["sg-old"]⟩]⟩]⟩) (fun _ _ => .ok (Val.str "done"))
    "sg-new" "i-1" ⟨[⟨[⟨["sg-old"]⟩]⟩]⟩ ⟨[⟨["sg-old"]⟩]⟩ ⟨["sg-old"]⟩ [] []
    rfl rfl rfl).1

/-- C6: if `group_id` is absent from the described security groups,
`authorize_ingress` treats the comparison as not authorized and still issues
exactly one `authorize_security_group_ingress` call for that `group_id`. -/
theorem authorize_ingress_absent_group_still_authorizes
    (groups : List SG) (auth : String → List Val → Except PyErr Val)
    (dsg2 : Except PyErr (List SG)) (g : String) (P : List Val)
    (habs : g ∉ groups.map SG.GroupId) :
    authorizeCallCount (authorize_ingress (.ok groups) auth dsg2 g P).2 = 1 ∧
    Event.authorizeIngress g P ∈ (authorize_ingress (.ok groups) auth dsg2 g P).2 := by
  have hc : (groups.map (fun sg => sg.GroupId)).contains g = false := by
    simpa using habs
  have hn : authorizeNeeded groups g P = true := by
    simp only [authorizeNeeded]
    rw [hc]
    simp
  rcases ha : auth g P with e | v
  · simp [authorize_ingress, hn, ha, authorizeCallCount, List.countP_cons]
  · rcases dsg2 with e2 | l2 <;>
      simp [authorize_ingress, hn, ha, authorizeCallCount, List.countP_cons]

/-- Witness for C6: a group id not among the described groups. -/
theorem authorize_ingress_absent_group_still_authorizes_witness :
    "sg-x" ∉ ([⟨"web", "sg-1", []⟩] : List SG).map SG.GroupId ∧
    authorizeCallCount
      (authorize_ingress (.ok [⟨"web", "sg-1", []⟩])
        (fun _ _ => .ok (Val.str "resp")) (.ok []) "sg-x" []).2 = 1 :=
  ⟨by decide,
   (authorize_ingress_absent_group_still_authorizes [⟨"web", "sg-1", []⟩]
     (fun _ _ => .ok (Val.str "resp")) (.ok []) "sg-x" [] (by decide)).1⟩

/-- When the group is found, the branch condition of `authorize_ingress`
reduces to the membership test of the requested rule list among the group's
current permission entries. -/
theorem authorizeNeeded_of_found (groups : List SG) (g : String) (P : List Val)
    (sg : SG) (hfind : groups.find? (fun s => g == s.GroupId) = some sg) :
    authorizeNeeded groups g P = !(sg.IpPermissions.contains (Val.list P)) := by
  have hmem : sg ∈ groups := List.mem_of_find?_eq_some hfind
  have hid : g = sg.GroupId := by
    have := List.find?_some hfind
    simpa using this
  have hc : (groups.map (fun s => s.GroupId)).contains g = true :=
    List.elem_eq_true_of_mem (List.mem_map.mpr ⟨sg, hmem, hid.symm⟩)
  simp only [authorizeNeeded]
  rw [hfind, hc]
  simp

/-- C3: for a `group_id` present among the described groups with rule list
`R`: `authorize_ingress` issues no `authorize_security_group_ingress` call
and returns the existing rule list exactly when the requested rule list is
already present in `R` (Python list membership, not semantic merge);
otherwise it issues exactly one such call. -/
theorem authorize_ingress_noop_iff_rules_present
    (groups groups2 : List SG) (auth : String → List Val → Except PyErr Val)
    (g : String) (P : List Val) (sg : SG)
    (hfind : groups.find? (fun s => g == s.GroupId) = some sg) :
    authorizeCallCount (authorize_ingress (.ok groups) auth (.ok groups2) g P).2 =
      (if Val.list P ∈ sg.IpPermissions then 0 else 1) ∧
    (Val.list P ∈ sg.IpPermissions →
      (authorize_ingress (.ok groups) auth (.ok groups2) g P).1 =
        .ok (some (Val.list sg.IpPermissions))) := by
  have hn := authorizeNeeded_of_found groups g P sg hfind
  by_cases hp : Val.list P ∈ sg.IpPermissions
  · have hn0 : authorizeNeeded groups g P = false := by
      rw [hn]
      simp [List.elem_iff]
      exact hp
    constructor
    · simp [authorize_ingress, hn0, hfind, authorizeCallCount, List.countP_cons, hp]
    · intro _
      simp [authorize_ingress, hn0, hfind, pyTry]
  · have hn1 : authorizeNeeded groups g P = true := by
      rw [hn]
      simp [List.elem_iff]
      exact hp
    rcases ha : auth g P with e | v <;>
      simp [authorize_ingress, hn1, ha, authorizeCallCount, List.countP_cons, hp]

/-- Witness for C3: a group whose current permissions already contain the
requested rule list, so no authorize call is issued. -/
theorem authorize_ingress_noop_iff_rules_present_witness :
    ([⟨"web", "sg-1", [Val.list [Val.str "r"]]⟩] : List SG).find?
        (fun s => "sg-1" == s.GroupId) = some ⟨"web", "sg-1", [Val.list [Val.str "r"]]⟩ ∧
    authorizeCallCount
      (authorize_ingress (.ok [⟨"web", "sg-1", [Val.list [Val.str "r"]]⟩])
        (fun _ _ => .ok (Val.str "resp")) (.ok []) "sg-1" [Val.str "r"]).2 =
      (if Val.list [Val.str "r"] ∈
          (⟨"web", "sg-1", [Val.list [Val.str "r"]]⟩ : SG).IpPermissions
       then 0 else 1) :=
  ⟨by decide,
   (authorize_ingress_noop_iff_rules_present
     [⟨"web", "sg-1", [Val.list [Val.str "r"]]⟩] []
     (fun _ _ => .ok (Val.str "resp")) "sg-1" [Val.str "r"]
     ⟨"web", "sg-1", [Val.list [Val.str "r"]]⟩ (by decide)).1⟩

/-- `create_keypair` never issues a `run_instances` call. -/
theorem create_keypair_no_run (dkp : Except PyErr (List String))
    (ckp : String → Except PyErr String) (k : String) (p : RunParams) :
    Event.runInstances p ∉ (create_keypair dkp ckp k).2 := by
  rcases dkp with e | keys
  · simp [create_keypair]
  · by_cases hk : k ∈ keys
    · simp [create_keypair, hk]
    · rcases hck : ckp k with e | m <;> simp [create_keypair, hk, hck]

/-- Every `run_instances` call issued by `create_instance` carries the
launch parameters computed as `min_count or 1` / `max_count or 1`. -/
theorem create_instance_run_params
    (dkp : Except PyErr (List String)) (ckp : String → Except PyErr String)
    (run : RunParams → Except PyErr (List String))
    (w : List String → Except PyErr Unit)
    (ami : String) (mn mx : Int) (c : Bool) (k : String) (p : RunParams)
    (h : Event.runInstances p ∈ (create_instance dkp ckp run w ami mn mx c k).2) :
    p.MinCount = pyIntOr mn 1 ∧ p.MaxCount = pyIntOr mx 1 := by
  cases c with
  | false =>
    rcases hr : run ⟨ami, pyIntOr mn 1, pyIntOr mx 1, "t2.micro", none⟩
        with e | ids
    · simp [create_instance, hr] at h
      subst h
      exact ⟨rfl, rfl⟩
    · rcases hw : w ids with e | u <;>
      · simp [create_instance, hr, hw] at h
        subst h
        exact ⟨rfl, rfl⟩
  | true =>
    rcases hkp : create_keypair dkp ckp k with ⟨res, evs⟩
    have hnr := create_keypair_no_run dkp ckp k p
    rw [hkp] at hnr
    cases res with
    | error e =>
      simp [create_instance, hkp] at h
      exact absurd h hnr
    | ok kn =>
      rcases hr : run ⟨ami, pyIntOr mn 1, pyIntOr mx 1, "t2.micro", some kn⟩
          with e | ids
      · simp [create_instance, hkp, hr] at h
        rcases h with h | h
        · exact absurd h hnr
        · subst h
          exact ⟨rfl, rfl⟩
      · rcases hw : w ids with e | u <;>
        · simp [create_instance, hkp, hr, hw] at h
          rcases h with h | h
          · exact absurd h hnr
          · subst h
            exact ⟨rfl, rfl⟩

/-- C10: for `min_count = 0` or `max_count = 0`, `create_instance` builds
the launch parameters with `MinCount = 1` / `MaxCount = 1` (computed as
`min_count or 1` and `max_count or 1`), so a zero count is never forwarded
to the provider's `run_instances` call. -/
theorem create_instance_zero_count_defaults
    (dkp : Except PyErr (List String)) (ckp : String → Except PyErr String)
    (run : RunParams → Except PyErr (List String))
    (w : List String → Except PyErr Unit)
    (ami : String) (mn mx : Int) (c : Bool) (k : String) :
    (∀ p, Event.runInstances p ∈ (create_instance dkp ckp run w ami 0 mx c k).2 →
       p.MinCount = 1) ∧
    (∀ p, Event.runInstances p ∈ (create_instance dkp ckp run w ami mn 0 c k).2 →
       p.MaxCount = 1) ∧
    pyIntOr 0 1 = 1 := by
  refine ⟨fun p hp => ?_, fun p hp => ?_, rfl⟩
  · have h1 := (create_instance_run_params dkp ckp run w ami 0 mx c k p hp).1
    simpa [pyIntOr] using h1
  · have h2 := (create_instance_run_params dkp ckp run w ami mn 0 c k p hp).2
    simpa [pyIntOr] using h2

/-- Witness for C10: a concrete launch with `min_count = 0` whose submitted
parameters carry `MinCount = 1`. -/
theorem create_instance_zero_count_defaults_witness :
    (⟨"ami-1", 1, 5, "t2.micro", none⟩ : RunParams).MinCount = 1 :=
  (create_instance_zero_count_defaults (.ok []) (fun _ => .ok "m")
      (fun _ => .ok ["i-1"]) (fun _ => .ok ()) "ami-1" 7 5 false "k").1
    ⟨"ami-1", 1, 5, "t2.micro", none⟩ (by decide)

/-- C5: the exception ladders of the wrapped provider-facing operations
(`create_instance`, `terminate_instance`, `create_security_group`,
`authorize_ingress`, `attach_security_group`) map `NoCredentialsError` to
the 400 credential response (never the generic 500), `ClientError` to a 400
client response, and every other exception to the 500 internal response,
each with its human-readable detail string; and an error raised by any of
the operations' provider calls is mapped through that ladder. -/
theorem provider_error_mapping :
    (awsHandle .noCredentials = ⟨400, "AWS credentials error"⟩) ∧
    (∀ m, awsHandle (.clientError m) = ⟨400, "AWS client error"⟩) ∧
    (∀ m, awsHandle (.valueError m) = ⟨500, "Unexpected error"⟩) ∧
    (∀ m, awsHandle (.attributeError m) = ⟨500, "Unexpected error"⟩) ∧
    (∀ m, awsHandle (.typeError m) = ⟨500, "Unexpected error"⟩) ∧
    (∀ m, awsHandle (.other m) = ⟨500, "Unexpected error"⟩) ∧
    (awsHandleTerm .noCredentials = ⟨400, "AWS credentials error"⟩) ∧
    (∀ m, awsHandleTerm (.clientError m) = ⟨400, "AWS client error: " ++ m⟩) ∧
    (∀ m, awsHandleTerm (.other m) = ⟨500, "Unexpected error"⟩) ∧
    (∀ csg n d e, (create_security_group (.error e) csg n d).1 =
       .error (awsHandle e)) ∧
    (∀ (groups : List SG) n d e, n ∉ groups.map SG.GroupName →
       (create_security_group (.ok groups) (fun _ _ => .error e) n d).1 =
         .error (awsHandle e)) ∧
    (∀ auth dsg2 g P e, (authorize_ingress (.error e) auth dsg2 g P).1 =
       .error (awsHandle e)) ∧
    (∀ (groups : List SG) dsg2 g P e, authorizeNeeded groups g P = true →
       (authorize_ingress (.ok groups) (fun _ _ => .error e) dsg2 g P).1 =
         .error (awsHandle e)) ∧
    (∀ (groups : List SG) (v : Val) g P e, authorizeNeeded groups g P = true →
       (authorize_ingress (.ok groups) (fun _ _ => .ok v) (.error e) g P).1 =
         .error (awsHandle e)) ∧
    (∀ mia g i e, (attach_security_group (fun _ => .error e) mia g i).1 =
       .error (awsHandle e)) ∧
    (∀ (resp : DIResp) g i e, diRespHasData resp = true →
       (attach_security_group (fun _ => .ok resp) (fun _ _ => .error e) g i).1 =
         .error (awsHandle e)) ∧
    (∀ ckp run w ami mn mx k e,
       (create_instance (.error e) ckp run w ami mn mx true k).1 =
         .error (awsHandle e)) ∧
    (∀ (keys : List String) run w ami mn mx k e, k ∉ keys →
       (create_instance (.ok keys) (fun _ => .error e) run w ami mn mx true k).1 =
         .error (awsHandle e)) ∧
    (∀ dkp ckp w ami mn mx k e,
       (create_instance dkp ckp (fun _ => .error e) w ami mn mx false k).1 =
         .error (awsHandle e)) ∧
    (∀ dkp ckp ids ami mn mx k e,
       (create_instance dkp ckp (fun _ => .ok ids) (fun _ => .error e)
         ami mn mx false k).1 = .error (awsHandle e)) ∧
    (∀ w ids e, (terminate_instance (fun _ => .error e) w ids).1 =
       .error (awsHandleTerm e)) ∧
    (∀ ids e, (terminate_instance (fun _ => .ok ()) (fun _ => .error e) ids).1 =
       .error (awsHandleTerm e)) := by
  refine ⟨rfl, fun m => rfl, fun m => rfl, fun m => rfl, fun m => rfl,
    fun m => rfl, rfl, fun m => rfl, fun m => rfl,
    fun csg n d e => rfl, ?_, fun auth dsg2 g P e => rfl, ?_, ?_,
    fun mia g i e => rfl, ?_, fun ckp run w ami mn mx k e => rfl, ?_,
    fun dkp ckp w ami mn mx k e => rfl,
    fun dkp ckp ids ami mn mx k e => rfl,
    fun w ids e => rfl, fun ids e => rfl⟩
  · intro groups n d e hn
    simp [create_security_group, hn, pyTry]
  · intro groups dsg2 g P e hcond
    simp [authorize_ingress, hcond, pyTry]
  · intro groups v g P e hcond
    simp [authorize_ingress, hcond, pyTry]
  · intro resp g i e hd
    rcases hres : resp.Reservations with _ | ⟨r0, rs⟩
    · rw [diRespHasData, hres] at hd
      exact absurd hd (by simp)
    · rcases hins : r0.Instances with _ | ⟨i0, is0⟩
      · rw [diRespHasData, hres] at hd
        simp [hins] at hd
      · have hretry : describe_instances_with_retry (fun _ => .ok resp) [i] =
            (.ok (some resp), [.describeInstances [i]]) := by
          simp [describe_instances_with_retry, retryAux, hd]
        simp [attach_security_group, hretry, hres, hins, pyTry]
  · intro keys run w ami mn mx k e hk
    simp [create_instance, create_keypair, hk, pyTry]

/-- Witness for C5: the hypothesized cases at concrete inputs. -/
theorem provider_error_mapping_witness :
    ((create_security_group (.ok [⟨"web", "sg-1", []⟩])
        (fun _ _ => .error .noCredentials) "db" "d").1 =
      .error (awsHandle .noCredentials)) ∧
    ((attach_security_group (fun _ => .ok ⟨[⟨[⟨[]⟩]⟩]⟩)
        (fun _ _ => .error (.clientError "c")) "g" "i").1 =
      .error (awsHandle (.clientError "c"))) ∧
    ((create_instance (.ok []) (fun _ => .error (.other "x"))
        (fun _ => .ok []) (fun _ => .ok ()) "ami" 1 1 true "k").1 =
      .error (awsHandle (.other "x"))) := by
  obtain ⟨-, -, -, -, -, -, -, -, -, -, hcsg, -, -, -, -, hattach, -, hci,
    -, -, -, -⟩ := provider_error_mapping
  exact ⟨hcsg [⟨"web", "sg-1", []⟩] "db" "d" .noCredentials (by decide),
    hattach ⟨[⟨[⟨[]⟩]⟩]⟩ "g" "i" (.clientError "c") (by decide),
    hci [] (fun _ => .ok []) (fun _ => .ok ()) "ami" 1 1 "k" (.other "x")
      (by decide)⟩

/-- The doubling delay sequence, one step unrolled. -/
theorem delaySeq_succ (d : Rat) (k : Nat) :
    (List.range (k + 1)).map (fun i => d * 2 ^ i) =
      d :: (List.range k).map (fun i => d * 2 * 2 ^ i) := by
  rw [List.range_succ_eq_map]
  simp only [List.map_cons, List.map_map, pow_zero, mul_one]
  congr 1
  refine List.map_congr_left ?_
  intro i _
  simp [Function.comp, pow_succ]
  ring

/-- If the first `k` attempts (counting from `attempt`) fail and attempt
`attempt + k` returns data, the retry loop returns that response after
issuing `k + 1` describe calls and sleeping the doubling delay sequence. -/
theorem retryAux_success (describe : Nat → Except PyErr DIResp)
    (ids : List String) (resp : DIResp) (hdata : diRespHasData resp = true) :
    ∀ (k attempt : Nat) (delay : Rat) (rem : Nat), k < rem →
    (∀ i, i < k → attemptErr describe (attempt + i) ≠ none) →
    describe (attempt + k) = .ok resp →
    ∃ trace, retryAux describe ids attempt delay rem = (.ok (some resp), trace) ∧
      sleepsOf trace = (List.range k).map (fun i => delay * 2 ^ i) ∧
      describeCallCount trace = k + 1 := by
  intro k
  induction k with
  | zero =>
    intro attempt delay rem hlt hfail hok
    rcases rem with _ | r
    · exact absurd hlt (by omega)
    · rw [Nat.add_zero] at hok
      refine ⟨[.describeInstances ids], ?_, rfl, rfl⟩
      simp [retryAux, hok, hdata]
  | succ k ih =>
    intro attempt delay rem hlt hfail hok
    rcases rem with _ | r
    · exact absurd hlt (by omega)
    have h0 : attemptErr describe attempt ≠ none := by
      have h := hfail 0 (by omega)
      simpa using h
    have hr0 : r ≠ 0 := by omega
    have hshift : ∀ i, i < k → attemptErr describe (attempt + 1 + i) ≠ none := by
      intro i hi
      have h := hfail (i + 1) (by omega)
      have he : attempt + (i + 1) = attempt + 1 + i := by omega
      rwa [he] at h
    have hok2 : describe (attempt + 1 + k) = .ok resp := by
      have he : attempt + (k + 1) = attempt + 1 + k := by omega
      rwa [he] at hok
    obtain ⟨trace, hrec, hsleeps, hcount⟩ :=
      ih (attempt + 1) (delay * 2) r (by omega) hshift hok2
    rcases hda : describe attempt with e | resp0
    · refine ⟨.describeInstances ids :: .sleep delay :: trace, ?_, ?_, ?_⟩
      · simp [retryAux, hda, hr0, hrec]
      · simp [sleepsOf] at hsleeps ⊢
        rw [hsleeps, delaySeq_succ]
      · simp [describeCallCount] at hcount ⊢
        omega
    · by_cases hv : diRespHasData resp0
      · exact absurd (by simp [attemptErr, hda, hv]) h0
      · refine ⟨.describeInstances ids :: .sleep delay :: trace, ?_, ?_, ?_⟩
        · simp [retryAux, hda, hv, hr0, hrec]
        · simp [sleepsOf] at hsleeps ⊢
          rw [hsleeps, delaySeq_succ]
        · simp [describeCallCount] at hcount ⊢
          omega

/-- If every permitted attempt fails, the retry loop issues exactly `rem`
describe calls, sleeps the doubling delays between them, and re-raises the
error of the last attempt. -/
theorem retryAux_fail (describe : Nat → Except PyErr DIResp)
    (ids : List String) :
    ∀ (rem attempt : Nat) (delay : Rat) (e : PyErr), 1 ≤ rem →
    (∀ i, i < rem → attemptErr describe (attempt + i) ≠ none) →
    attemptErr describe (attempt + (rem - 1)) = some e →
    ∃ trace, retryAux describe ids attempt delay rem = (.error e, trace) ∧
      describeCallCount trace = rem ∧
      sleepsOf trace = (List.range (rem - 1)).map (fun i => delay * 2 ^ i) := by
  intro rem
  induction rem with
  | zero =>
    intro attempt delay e h1
    exact absurd h1 (by omega)
  | succ r ih =>
    intro attempt delay e h1 hfail hlast
    rcases Nat.eq_zero_or_pos r with rfl | hr
    · rw [Nat.add_zero] at hlast
      rcases hda : describe attempt with e0 | resp0
      · have he : e0 = e := by
          rw [attemptErr, hda] at hlast
          exact Option.some_injective _ hlast
        subst he
        exact ⟨[.describeInstances ids], by simp [retryAux, hda], rfl, rfl⟩
      · by_cases hv : diRespHasData resp0
        · rw [attemptErr, hda] at hlast
          simp [hv] at hlast
        · have he : PyErr.valueError "Instance data not available yet" = e := by
            rw [attemptErr, hda] at hlast
            simpa [hv] using hlast
          subst he
          exact ⟨[.describeInstances ids], by simp [retryAux, hda, hv], rfl, rfl⟩
    · have h0 : attemptErr describe attempt ≠ none := by
        have h := hfail 0 (by omega)
        simpa using h
      have hr0 : r ≠ 0 := by omega
      have hshift : ∀ i, i < r → attemptErr describe (attempt + 1 + i) ≠ none := by
        intro i hi
        have h := hfail (i + 1) (by omega)
        have heq : attempt + (i + 1) = attempt + 1 + i := by omega
        rwa [heq] at h
      have hlast2 : attemptErr describe (attempt + 1 + (r - 1)) = some e := by
        have heq : attempt + (r + 1 - 1) = attempt + 1 + (r - 1) := by omega
        rwa [heq] at hlast
      obtain ⟨trace, hrec, hcount, hsleeps⟩ :=
        ih (attempt + 1) (delay * 2) e hr hshift hlast2
      rcases hda : describe attempt with e0 | resp0
      · refine ⟨.describeInstances ids :: .sleep delay :: trace, ?_, ?_, ?_⟩
        · simp [retryAux, hda, hr0, hrec]
        · simp [describeCallCount] at hcount ⊢
          omega
        · simp [sleepsOf] at hsleeps ⊢
          rw [hsleeps]
          conv_rhs => rw [show r = r - 1 + 1 by omega]
          rw [delaySeq_succ]
      · by_cases hv : diRespHasData resp0
        · exact absurd (by simp [attemptErr, hda, hv]) h0
        · refine ⟨.describeInstances ids :: .sleep delay :: trace, ?_, ?_, ?_⟩
          · simp [retryAux, hda, hv, hr0, hrec]
          · simp [describeCallCount] at hcount ⊢
            omega
          · simp [sleepsOf] at hsleeps ⊢
            rw [hsleeps]
            conv_rhs => rw [show r = r - 1 + 1 by omega]
            rw [delaySeq_succ]

/-- C4: for `describe_instances_with_retry` with any `max_attempts` and
`initial_delay`: if the data source first yields a response containing at
least one reservation with at least one instance on attempt `N` (with
`N ≤ max_attempts`), the call returns that response after sleeping exactly
`N - 1` times with delays `initial_delay, 2·initial_delay, 4·initial_delay, …`;
if no attempt yields valid data, it performs exactly `max_attempts` describe
calls and re-raises the error of the last attempt. -/
theorem describe_retry_backoff :
    (∀ (describe : Nat → Except PyErr DIResp) (ids : List String)
       (max_attempts : Nat) (initial_delay : Rat) (N : Nat) (resp : DIResp),
       1 ≤ N → N ≤ max_attempts →
       (∀ i, i < N - 1 → attemptErr describe i ≠ none) →
       describe (N - 1) = .ok resp → diRespHasData resp = true →
       ∃ trace,
         describe_instances_with_retry describe ids max_attempts initial_delay =
           (.ok (some resp), trace) ∧
         sleepsOf trace =
           (List.range (N - 1)).map (fun i => initial_delay * 2 ^ i) ∧
         (sleepsOf trace).length = N - 1 ∧
         describeCallCount trace = N) ∧
    (∀ (describe : Nat → Except PyErr DIResp) (ids : List String)
       (max_attempts : Nat) (initial_delay : Rat) (e : PyErr),
       1 ≤ max_attempts →
       (∀ i, i < max_attempts → attemptErr describe i ≠ none) →
       attemptErr describe (max_attempts - 1) = some e →
       ∃ trace,
         describe_instances_with_retry describe ids max_attempts initial_delay =
           (.error e, trace) ∧
         describeCallCount trace = max_attempts ∧
         sleepsOf trace =
           (List.range (max_attempts - 1)).map (fun i => initial_delay * 2 ^ i)) := by
  constructor
  · intro describe ids max_attempts initial_delay N resp hN hNmax hfails hok hdata
    obtain ⟨trace, h1, h2, h3⟩ :=
      retryAux_success describe ids resp hdata (N - 1) 0 initial_delay
        max_attempts (by omega)
        (fun i hi => by simpa using hfails i hi)
        (by simpa using hok)
    refine ⟨trace, ?_, h2, ?_, ?_⟩
    · simpa [describe_instances_with_retry] using h1
    · rw [h2]
      simp
    · omega
  · intro describe ids max_attempts initial_delay e hmax hfails hlast
    obtain ⟨trace, h1, h2, h3⟩ :=
      retryAux_fail describe ids max_attempts 0 initial_delay e hmax
        (fun i hi => by simpa using hfails i hi)
        (by simpa using hlast)
    exact ⟨trace, by simpa [describe_instances_with_retry] using h1, h2, h3⟩

/-- Witness for C4: a source failing twice then valid on attempt 3 of 5. -/
theorem describe_retry_backoff_witness :
    ∃ trace,
      describe_instances_with_retry
          (fun n => if n < 2 then Except.error (PyErr.other "boom")
                    else Except.ok ⟨[⟨[⟨["sg-1"]⟩]⟩]⟩) ["i-1"] 5 1 =
        (.ok (some ⟨[⟨[⟨["sg-1"]⟩]⟩]⟩), trace) ∧
      sleepsOf trace = (List.range (3 - 1)).map (fun i => 1 * 2 ^ i) ∧
      (sleepsOf trace).length = 3 - 1 ∧
      describeCallCount trace = 3 :=
  describe_retry_backoff.1
    (fun n => if n < 2 then Except.error (PyErr.other "boom")
              else Except.ok ⟨[⟨[⟨["sg-1"]⟩]⟩]⟩) ["i-1"] 5 1 3
    ⟨[⟨[⟨["sg-1"]⟩]⟩]⟩ (by omega) (by omega) (by decide) rfl (by decide)

/-- A successful `attach_security_group` logged a
`modify_instance_attribute` call whose submitted group list contains the
attached group. -/
theorem attach_ok_events (describe : Nat → Except PyErr DIResp)
    (mia : String → List String → Except PyErr Val)
    (g i : String) (v : Val) (evs : List Event)
    (h : attach_security_group describe mia g i = (.ok v, evs)) :
    ∃ gl, Event.modifyInstanceAttribute i gl ∈ evs ∧ g ∈ gl := by
  rcases hr : describe_instances_with_retry describe [i] with ⟨res, revs⟩
  simp only [attach_security_group, hr] at h
  rcases res with e | o
  · simp [pyTry] at h
  rcases o with _ | resp
  · simp [pyTry] at h
  rcases hres : resp.Reservations with _ | ⟨r0, rs⟩
  · simp [hres, pyTry] at h
  rcases hins : r0.Instances with _ | ⟨i0, is0⟩
  · simp [hres, hins, pyTry] at h
  by_cases hg : g ∈ i0.SecurityGroups
  · rcases hm : mia i i0.SecurityGroups with e | v0
    · simp [hres, hins, hg, hm, pyTry] at h
    · simp [hres, hins, hg, hm, pyTry] at h
      refine ⟨i0.SecurityGroups, ?_, hg⟩
      rw [← h.2]
      simp
  · rcases hm : mia i (i0.SecurityGroups ++ [g]) with e | v0
    · simp [hres, hins, hg, hm, pyTry] at h
    · simp [hres, hins, hg, hm, pyTry] at h
      refine ⟨i0.SecurityGroups ++ [g], ?_, by simp⟩
      rw [← h.2]
      simp

/-- When every per-instance attach succeeds, the sequential attach loop
succeeds and its trace holds, for every launched instance, a
`modify_instance_attribute` call whose group list contains the group. -/
theorem attachAll_ok (describeFor : String → Nat → Except PyErr DIResp)
    (mia : String → List String → Except PyErr Val) (gid : String) :
    ∀ ids : List String,
    (∀ iid ∈ ids, ∃ v evs,
       attach_security_group (describeFor iid) mia gid iid = (.ok v, evs)) →
    ∃ evsA, attachAll describeFor mia gid ids = (.ok (), evsA) ∧
      ∀ iid ∈ ids, ∃ gl,
        Event.modifyInstanceAttribute iid gl ∈ evsA ∧ gid ∈ gl
  | [], _ => ⟨[], rfl, by simp⟩
  | iid :: rest, h => by
    obtain ⟨v, evs, hat⟩ := h iid (List.mem_cons_self _ _)
    obtain ⟨evsA, hAll, hmem⟩ :=
      attachAll_ok describeFor mia gid rest
        (fun j hj => h j (List.mem_cons_of_mem _ hj))
    refine ⟨evs ++ evsA, ?_, ?_⟩
    · simp [attachAll, hat, hAll]
    · intro j hj
      rcases List.mem_cons.mp hj with rfl | hj2
      · obtain ⟨gl, hgl, hg⟩ := attach_ok_events _ _ _ _ _ _ hat
        exact ⟨gl, List.mem_append_left _ hgl, hg⟩
      · obtain ⟨gl, hgl, hg⟩ := hmem j hj2
        exact ⟨gl, List.mem_append_right _ hgl, hg⟩

/-- C1: when security-group creation is requested and the feature flag is
enabled, the orchestrated create ensures the named group exists (the
`create_security_group` step, trace `evs1`), translates the caller's rule
list through `SGRule.toIpPermission` and runs `authorize_ingress` on it
(trace `evs2`) before the launch; after the launch it attaches the group to
every newly launched instance, and only then waits for the running state. -/
theorem create_instance_full_sg_orchestration
    (dsg : Except PyErr (List SG)) (csg : String → String → Except PyErr String)
    (dsgA : Except PyErr (List SG)) (auth : String → List Val → Except PyErr Val)
    (dsgA2 : Except PyErr (List SG))
    (dkp : Except PyErr (List String)) (ckp : String → Except PyErr String)
    (run : RunParams → Except PyErr (List String))
    (describeFor : String → Nat → Except PyErr DIResp)
    (mia : String → List String → Except PyErr Val)
    (waiterRunning : List String → Except PyErr Unit)
    (ami_id : String) (min_count max_count : Int) (create_key_pair : Bool)
    (key_name sg_name sg_desc : String) (rules : List SGRule)
    (gid kn : String) (av : Option Val) (ids : List String)
    (evs1 evs2 evsK : List Event)
    (hsg : create_security_group dsg csg sg_name sg_desc = (.ok (some gid), evs1))
    (hauth : authorize_ingress dsgA auth dsgA2 gid
        (rules.map SGRule.toIpPermission) = (.ok av, evs2))
    (hkp : create_keypair dkp ckp key_name = (.ok kn, evsK))
    (hrun : ∀ p, run p = .ok ids)
    (hattach : ∀ iid ∈ ids, ∃ v evs,
        attach_security_group (describeFor iid) mia gid iid = (.ok v, evs))
    (hwait : waiterRunning ids = .ok ()) :
    ∃ ps attachEvs,
      create_instance_full true dsg csg dsgA auth dsgA2 dkp ckp run describeFor
          mia waiterRunning ami_id min_count max_count create_key_pair key_name
          true sg_name sg_desc rules =
        (.ok ids,
         evs1 ++ evs2 ++ (if create_key_pair then evsK else []) ++
           [.runInstances ps] ++ attachEvs ++ [.waitRunning ids]) ∧
      (∀ iid ∈ ids, ∃ gl,
        Event.modifyInstanceAttribute iid gl ∈ attachEvs ∧ gid ∈ gl) := by
  obtain ⟨evsA, hA, hmem⟩ := attachAll_ok describeFor mia gid ids hattach
  cases create_key_pair with
  | false =>
    refine ⟨⟨ami_id, pyIntOr min_count 1, pyIntOr max_count 1, "t2.micro",
      none⟩, evsA, ?_, hmem⟩
    simp [create_instance_full, hsg, hauth, hrun, hA, hwait]
  | true =>
    refine ⟨⟨ami_id, pyIntOr min_count 1, pyIntOr max_count 1, "t2.micro",
      some kn⟩, evsA, ?_, hmem⟩
    simp [create_instance_full, hsg, hauth, hkp, hrun, hA, hwait]

/-- Witness for C1: a concrete request with the flag enabled, an empty
provider account, one launched instance and one rule-free group. -/
theorem create_instance_full_sg_orchestration_witness :
    ∃ ps attachEvs,
      create_instance_full true (.ok []) (fun _ _ => .ok "sg-9") (.ok [])
          (fun _ _ => .ok (Val.str "ok")) (.ok []) (.ok [])
          (fun _ => .ok "PEM") (fun _ => .ok ["i-9"])
          (fun _ _ => .ok ⟨[⟨[⟨[]⟩]⟩]⟩) (fun _ _ => .ok (Val.str "m"))
          (fun _ => .ok ()) "ami-1" 1 2 true "kp" true "web" "d" [] =
        (.ok ["i-9"],
         [Event.describeSecurityGroups, Event.createSecurityGroup "web" "d"] ++
           [Event.describeSecurityGroups,
            Event.authorizeIngress "sg-9" (([] : List SGRule).map SGRule.toIpPermission),
            Event.describeSecurityGroups] ++
           (if true then
              [Event.describeKeyPairs, Event.createKeyPair "kp",
               Event.writeFile ("kp" ++ ".pem") "PEM",
               Event.chmod ("kp" ++ ".pem") 0o400]
            else []) ++
           [Event.runInstances ps] ++ attachEvs ++ [Event.waitRunning ["i-9"]]) ∧
      (∀ iid ∈ (["i-9"] : List String), ∃ gl,
        Event.modifyInstanceAttribute iid gl ∈ attachEvs ∧ "sg-9" ∈ gl) :=
  create_instance_full_sg_orchestration (.ok []) (fun _ _ => .ok "sg-9")
    (.ok []) (fun _ _ => .ok (Val.str "ok")) (.ok []) (.ok [])
    (fun _ => .ok "PEM") (fun _ => .ok ["i-9"])
    (fun _ _ => .ok ⟨[⟨[⟨[]⟩]⟩]⟩) (fun _ _ => .ok (Val.str "m"))
    (fun _ => .ok ()) "ami-1" 1 2 true "kp" "web" "d" []
    "sg-9" "kp" (some (Val.str "ok")) ["i-9"]
    [Event.describeSecurityGroups, Event.createSecurityGroup "web" "d"]
    [Event.describeSecurityGroups,
     Event.authorizeIngress "sg-9" (([] : List SGRule).map SGRule.toIpPermission),
     Event.describeSecurityGroups]
    [Event.describeKeyPairs, Event.createKeyPair "kp",
     Event.writeFile ("kp" ++ ".pem") "PEM",
     Event.chmod ("kp" ++ ".pem") 0o400]
    rfl rfl rfl (fun _ => rfl)
    (fun iid _ => ⟨Val.str "m",
      [.describeInstances [iid], .modifyInstanceAttribute iid ["sg-9"]], rfl⟩)
    rfl

/-- Witness for C2 at the default request body. -/
theorem api_create_instance_always_errors_witness :
    api_create_instance {} =
      (.error (.attributeError "create_security_group"), []) :=
  (api_create_instance_always_errors {}).1
